import Mathlib

/-!
Verification of the tool-use conversation loop of the openapi-agent-cli
repository: a shallow embedding of `api_call_service.py` (the HTTP tool
executor and header masking) and `main.py` (tool dispatch, execution
history, tool-name validation and the orchestrator loop), with theorems
settling the specification claims.

Python strings are modelled through their character lists; the helpers
`pySplit`, `pySlice`, `pyJoin`, `pyLower`, `pyContains` mirror the Python
`str` operations used by the source (`split`, slicing, `join`, `lower`,
`in`).  Wall-clock time (timestamps, durations) and log output are not
modelled: no claim depends on them.
-/

/-- JSON values, the data manipulated by the service layer. -/
inductive Json where
  | null : Json
  | bool (b : Bool) : Json
  | num (n : Int) : Json
  | str (s : String) : Json
  | arr (elems : List Json) : Json
  | obj (fields : List (String × Json)) : Json

/-- A Python dict with JSON values, keeping insertion order. -/
abbrev JObj := List (String × Json)

/-- A Python dict of string headers, keeping insertion order. -/
abbrev Headers := List (String × String)

/-- Dict lookup, `d.get(k)` / `d[k]`: first matching key. -/
def getKey? (d : JObj) (k : String) : Option Json :=
  (d.find? (fun p => p.1 == k)).map (·.2)

/-- Dict membership test, `k in d`. -/
def hasKey (d : JObj) (k : String) : Bool :=
  d.any (fun p => p.1 == k)

/-- Dict assignment `d[k] = v`: overwrite in place when the key exists,
append otherwise (Python dict semantics). -/
def setKey : JObj → String → Json → JObj
  | [], k, v => [(k, v)]
  | (k', v') :: rest, k, v =>
      if k' == k then (k, v) :: rest else (k', v') :: setKey rest k v

/-- Header-dict assignment `d[k] = v`, same semantics as `setKey`. -/
def setHeader : Headers → String → String → Headers
  | [], k, v => [(k, v)]
  | (k', v') :: rest, k, v =>
      if k' == k then (k, v) :: rest else (k', v') :: setHeader rest k v

/-- Python truthiness of an optional JSON value (`if not x`). -/
def falsy : Option Json → Bool
  | none => true
  | some .null => true
  | some (.bool b) => !b
  | some (.num n) => n == 0
  | some (.str s) => s == ""
  | some (.arr xs) => xs.isEmpty
  | some (.obj kvs) => kvs.isEmpty

/-- Helper for `pySplit`: walk the characters, cutting at the separator. -/
def pySplitAux (c : Char) : List Char → List Char → List String
  | [], acc => [String.mk acc.reverse]
  | ch :: rest, acc =>
      if ch == c then String.mk acc.reverse :: pySplitAux c rest []
      else pySplitAux c rest (ch :: acc)

/-- Python `s.split(c)` for a one-character separator. -/
def pySplit (s : String) (c : Char) : List String :=
  pySplitAux c s.data []

/-- Python slice `s[:n]`. -/
def pySlice (s : String) (n : Nat) : String :=
  String.mk (s.data.take n)

/-- Python `sep.join(xs)`. -/
def pyJoin (sep : String) : List String → String
  | [] => ""
  | [x] => x
  | x :: y :: rest => x ++ sep ++ pyJoin sep (y :: rest)

/-- Python `s.lower()` (ASCII case fold, as used on header names). -/
def pyLower (s : String) : String :=
  String.mk (s.data.map Char.toLower)

/-- Python `c in s` for a character. -/
def pyContains (s : String) (c : Char) : Bool :=
  s.data.contains c

/-- The initial `_default_headers` module state of `api_call_service.py`. -/
def initial_default_headers : Headers :=
  [("Content-Type", "application/json"), ("Accept", "application/json")]

/-- The `sensitive_headers` list of `mask_sensitive_headers`. -/
def sensitive_headers : List String :=
  ["authorization", "x-api-key", "api-key", "token", "apikey"]

/-- The fixed mask `'*' * 8`. -/
def mask8 : String := "********"

/-- The per-value masking performed inside the loop of
`mask_sensitive_headers` for a sensitive header value. -/
def maskValue (v : String) : String :=
  if v ≠ "" ∧ 8 < v.length then
    let type_part := if pyContains v ' ' then (pySplit v ' ').headD "" else ""
    if type_part ≠ "" ∧ type_part.length < v.length then
      type_part ++ " " ++ mask8
    else
      pySlice v 4 ++ mask8
  else
    mask8

/-- `mask_sensitive_headers(headers)`: deep-copy the dict and mask every
value whose lowercased key is in the sensitive set.  This is the pure
value-level version; the heap version below models the mutation frame. -/
def mask_sensitive_headers (headers : Headers) : Headers :=
  if headers.isEmpty then []
  else headers.map (fun p =>
    if sensitive_headers.contains (pyLower p.1) then (p.1, maskValue p.2) else p)

/-- Merge of default headers with per-call overrides
(`request_headers[key] = value` for each provided header). -/
def mergeHeaders (defaults : Headers) (hs : Option Headers) : Headers :=
  match hs with
  | none => defaults
  | some l => l.foldl (fun acc p => setHeader acc p.1 p.2) defaults

/-- View a header dict as a JSON object (for the `debug_info` snapshot). -/
def headersToJson (hs : Headers) : Json :=
  .obj (hs.map (fun p => (p.1, .str p.2)))

/-- One transport-level outcome of `requests.request`: either an HTTP
response (status, optional reason phrase and body) or a raised
`requests.RequestException` (message and exception class name).  The body
carries the outcome of `response.json()`: `.inl` a parsed JSON value,
`.inr` the raw text when parsing raises `json.JSONDecodeError`. -/
inductive Transport where
  | response (status : Nat) (reason : Option String) (body : Json ⊕ String)
  | exn (msg : String) (ename : String)

/-- Result of one `api_call_service` invocation: the returned dict, or the
name of a Python exception that escapes to the caller; plus whether
`requests.request` was actually invoked. -/
structure CallOutcome where
  result : Except String JObj
  requested : Bool

/-- The `debug_info` dict built at the top of the `try` block. -/
def debugInfo (url method : Option Json) (requestBody params : Option Json)
    (request_headers : Headers) : Json :=
  .obj [("method", method.getD .null),
        ("url", url.getD .null),
        ("headers", headersToJson (mask_sensitive_headers request_headers)),
        ("params", params.getD .null),
        ("requestBody", requestBody.getD .null)]

/-- `api_call_service(url, method, requestBody, params, headers)` from
`api_call_service.py`.  `defaults` is the `_default_headers` module state;
`t` is the outcome of the single `requests.request` call.  A `.error e`
result means the Python exception `e` escapes to the caller (only
`requests.RequestException` is caught by the function). -/
def api_call_service (url method : Option Json) (requestBody params : Option Json)
    (headers : Option Headers) (defaults : Headers) (t : Transport) : CallOutcome :=
  if falsy url then ⟨.ok [("error", .str "URL is required")], false⟩
  else if falsy method then ⟨.ok [("error", .str "Method is required")], false⟩
  else
    let request_headers := mergeHeaders defaults headers
    let debug_info := debugInfo url method requestBody params request_headers
    match t with
    | .exn msg ename =>
        ⟨.ok [("error", .str ("Request failed: " ++ msg)),
              ("exception_type", .str ename),
              ("request", debug_info),
              ("status_code", .num 500)], true⟩
    | .response sc reason body =>
        -- inner try: parse the body; `result_data` stays unbound on failure
        let parsed : Except Unit (Option Json × JObj) :=
          match body with
          | .inl (.arr xs) => .ok (some (.arr xs), [("data", .arr xs), ("status_code", .num sc)])
          | .inl (.obj kvs) => .ok (some (.obj kvs), setKey kvs "status_code" (.num sc))
          | .inl _ => .error ()  -- `result[...] = ...` on a scalar: TypeError, uncaught
          | .inr raw => .ok (none, [("text", .str raw), ("status_code", .num sc)])
        match parsed with
        | .error _ => ⟨.error "TypeError", true⟩
        | .ok (result_data, result0) =>
          if 400 ≤ sc then
            let error_msg := "API call failed with status code " ++ toString sc ++
              (match reason with
               | some rs => if rs ≠ "" then ": " ++ rs else ""
               | none => "")
            let r1 := setKey result0 "error" (.str error_msg)
            let r2 := setKey r1 "request" debug_info
            let r3 :=
              if sc == 401 then
                setKey r2 "error" (.str "Authentication failed (401): Check your API key")
              else if sc == 403 then
                setKey r2 "error" (.str "Access forbidden (403): Check your API key permissions")
              else r2
            match result_data with
            | none => ⟨.error "NameError", true⟩
              -- `isinstance(result_data, dict)` with `result_data` unbound
            | some (.obj kvs) =>
                let r4 :=
                  match getKey? kvs "message" with
                  | some v => setKey r3 "error_message" v
                  | none =>
                    match getKey? kvs "error" with
                    | some (.obj ekvs) =>
                        match getKey? ekvs "message" with
                        | some m => setKey r3 "error_message" m
                        | none => setKey r3 "error_message" (.obj ekvs)
                    | some other => setKey r3 "error_message" other
                    | none => r3
                ⟨.ok r4, true⟩
            | some _ => ⟨.ok r3, true⟩
          else ⟨.ok result0, true⟩

/-- C1: `api_call_service` does not always return a result: a non-JSON
body combined with a status code of at least 400 reaches
`isinstance(result_data, dict)` with `result_data` unbound, and the
resulting `NameError` is not a `requests.RequestException`, so it escapes
to the caller.  The transport-failure half of the claim does hold: a
`RequestException` is converted into a `status_code == 500` result. -/
theorem C1_api_raises_on_nonjson_error_body :
    ((api_call_service (some (.str "http://example.com")) (some (.str "GET"))
        none none none initial_default_headers
        (.response 404 (some "Not Found") (.inr "oops"))).result
      = .error "NameError")
    ∧ (∃ r, (api_call_service (some (.str "http://example.com")) (some (.str "GET"))
          none none none initial_default_headers
          (.exn "connection refused" "ConnectionError")).result = .ok r
        ∧ getKey? r "status_code" = some (.num 500)
        ∧ getKey? r "error" = some (.str "Request failed: connection refused")) := by
  refine ⟨rfl, ?_⟩
  refine ⟨_, rfl, rfl, rfl⟩

/-- C8: when `url` or `method` is absent (falsy), `api_call_service`
returns a structured error result, raises nothing, and never reaches
`requests.request`. -/
theorem C8_missing_url_or_method (url method : Option Json)
    (requestBody params : Option Json) (headers : Option Headers)
    (defaults : Headers) (t : Transport)
    (h : falsy url = true ∨ falsy method = true) :
    (api_call_service url method requestBody params headers defaults t).requested = false
    ∧ ((api_call_service url method requestBody params headers defaults t).result
          = .ok [("error", .str "URL is required")]
       ∨ (api_call_service url method requestBody params headers defaults t).result
          = .ok [("error", .str "Method is required")]) := by
  unfold api_call_service
  rcases h with h | h
  · simp [h]
  · by_cases hu : falsy url = true
    · simp [hu]
    · simp [hu, h]

/-- Witness for C8 at a concrete absent-url input. -/
theorem C8_missing_url_or_method_witness :
    (api_call_service none (some (.str "GET")) none none none
        initial_default_headers (.exn "x" "E")).requested = false
    ∧ ((api_call_service none (some (.str "GET")) none none none
          initial_default_headers (.exn "x" "E")).result
        = .ok [("error", .str "URL is required")]
       ∨ (api_call_service none (some (.str "GET")) none none none
          initial_default_headers (.exn "x" "E")).result
        = .ok [("error", .str "Method is required")]) :=
  C8_missing_url_or_method none (some (.str "GET")) none none none
    initial_default_headers (.exn "x" "E") (Or.inl rfl)

/-- Length of a string built from a character list. -/
theorem strLength_mk (l : List Char) : (String.mk l).length = l.length := rfl

/-- The first segment of a Python `split` is strictly shorter than the
accumulated input when the separator occurs in the remaining input. -/
theorem pySplitAux_head_length (c : Char) :
    ∀ (l acc : List Char), c ∈ l →
      ((pySplitAux c l acc).headD "").length < acc.length + l.length := by
  intro l
  induction l with
  | nil => intro acc h; cases h
  | cons ch rest ih =>
    intro acc h
    cases hc : ch == c with
    | true =>
      simp [pySplitAux, hc, strLength_mk]
    | false =>
      have hmem : c ∈ rest := by
        rcases List.mem_cons.mp h with h1 | h1
        · subst h1; simp at hc
        · exact h1
      have h2 := ih (ch :: acc) hmem
      simp only [List.length_cons] at h2
      simp only [pySplitAux, hc, Bool.false_eq_true, if_false, List.length_cons]
      omega

/-- The leading token of a value that contains a space is strictly shorter
than the value itself. -/
theorem pySplit_head_length (v : String) (c : Char)
    (h : pyContains v c = true) :
    ((pySplit v c).headD "").length < v.length := by
  have hm : c ∈ v.data := List.mem_of_elem_eq_true h
  have h2 := pySplitAux_head_length c v.data [] hm
  have h3 : ((pySplit v c).headD "").length < 0 + v.data.length := h2
  have h4 : v.length = v.data.length := rfl
  omega

/-- C6 (amended): masking of a sensitive header value.  When the value is
longer than 8 characters, contains a space, and the token before the
first space is nonempty, the token is kept and the remainder replaced by
the 8-character mask; values of length at most 8 are fully masked.
(The original claim omitted the nonempty-token condition; a value whose
first character is a space instead keeps its first 4 characters.) -/
theorem C6_sensitive_masking (k v w : String)
    (hs : sensitive_headers.contains (pyLower k) = true)
    (hcase :
      (8 < v.length ∧ pyContains v ' ' = true
        ∧ (pySplit v ' ').headD "" ≠ ""
        ∧ w = (pySplit v ' ').headD "" ++ " " ++ mask8)
      ∨ (v.length ≤ 8 ∧ w = mask8)) :
    mask_sensitive_headers [(k, v)] = [(k, w)] := by
  have hmem : pyLower k ∈ sensitive_headers := by simpa using hs
  rcases hcase with ⟨h8, hsp, htok, hw⟩ | ⟨h8, hw⟩
  · have hvne : v ≠ "" := by
      intro hv; rw [hv] at h8; simp [String.length] at h8
    have hlt : ((pySplit v ' ').headD "").length < v.length :=
      pySplit_head_length v ' ' hsp
    have htok' : ¬ (pySplit v ' ').head?.getD "" = "" := by
      simpa [List.headD_eq_head?_getD] using htok
    have hlt' : ((pySplit v ' ').head?.getD "").length < v.length := by
      simpa [List.headD_eq_head?_getD] using hlt
    subst hw
    simp [mask_sensitive_headers, maskValue, hsp, hvne, h8, hmem, htok', hlt']
  · subst hw
    have hnlt : ¬ 8 < v.length := by omega
    simp [mask_sensitive_headers, maskValue, hnlt, hmem]

/-- C6 counterexample: for the sensitive value `" 123456789"` (length 10,
contains a space, empty leading token) the code keeps the first 4
characters instead of the scheme-token shape the claim predicts. -/
theorem C6_counterexample :
    (sensitive_headers.contains (pyLower "authorization") = true
      ∧ 8 < (" 123456789" : String).length
      ∧ pyContains " 123456789" ' ' = true)
    ∧ mask_sensitive_headers [("authorization", " 123456789")]
        ≠ [("authorization", ((pySplit " 123456789" ' ').headD "") ++ " " ++ mask8)] := by
  decide

/-- Witness for C6 at the concrete header `Authorization: Bearer secret123`. -/
theorem C6_sensitive_masking_witness :
    mask_sensitive_headers [("Authorization", "Bearer secret123")]
      = [("Authorization", "Bearer ********")] :=
  C6_sensitive_masking "Authorization" "Bearer secret123" "Bearer ********"
    (by decide)
    (Or.inl ⟨by decide, by decide, by decide, by decide⟩)

/-- A heap of header dicts: object references are list indices.  Models
Python object identity for the mutation-frame claim about
`mask_sensitive_headers`. -/
structure Heap where
  objs : List Headers

/-- Dereference an object (reads of a dangling reference yield `[]`). -/
def Heap.readRef (h : Heap) (r : Nat) : Headers := h.objs.getD r []

/-- Allocate a fresh object, returning the new heap and its reference. -/
def Heap.alloc (h : Heap) (d : Headers) : Heap × Nat :=
  (⟨h.objs ++ [d]⟩, h.objs.length)

/-- Overwrite the object at a reference. -/
def Heap.writeRef (h : Heap) (r : Nat) (d : Headers) : Heap :=
  ⟨h.objs.set r d⟩

/-- `obj[k] = v` on the object at reference `r`. -/
def writeKeyRef (h : Heap) (r : Nat) (k v : String) : Heap :=
  h.writeRef r (setHeader (h.readRef r) k v)

/-- `mask_sensitive_headers` at the object level: `if not headers` returns
a fresh empty dict; otherwise `copy.deepcopy` allocates a fresh dict and
the loop writes masked values only into that copy. -/
def mask_sensitive_headers_heap (h : Heap) (r : Nat) : Heap × Nat :=
  let d := h.readRef r
  if d.isEmpty then h.alloc []
  else
    let a := h.alloc d
    let h2 := d.foldl (fun acc p =>
      if sensitive_headers.contains (pyLower p.1) then
        writeKeyRef acc a.2 p.1 (maskValue p.2)
      else acc) a.1
    (h2, a.2)

/-- Writing through one reference leaves every other reference unchanged. -/
theorem readRef_writeRef_ne (h : Heap) (r r1 : Nat) (d : Headers)
    (hne : r ≠ r1) : (h.writeRef r1 d).readRef r = h.readRef r := by
  simp [Heap.readRef, Heap.writeRef, List.getD, List.getElem?_set_ne (Ne.symm hne)]

/-- The masking loop writes only into the deep copy: any other reference
reads the same value before and after the fold. -/
theorem foldl_mask_readRef_preserved (r r1 : Nat) (hne : r ≠ r1)
    (entries : Headers) :
    ∀ (h0 : Heap),
      (entries.foldl (fun acc p =>
          if sensitive_headers.contains (pyLower p.1) then
            writeKeyRef acc r1 p.1 (maskValue p.2)
          else acc) h0).readRef r = h0.readRef r := by
  induction entries with
  | nil => intro h0; rfl
  | cons p rest ih =>
    intro h0
    simp only [List.foldl_cons]
    rw [ih]
    cases hc : sensitive_headers.contains (pyLower p.1) with
    | true =>
      simp only [hc, if_true]
      exact readRef_writeRef_ne _ r r1 _ hne
    | false =>
      simp only [hc, Bool.false_eq_true, if_false]

/-- Allocation does not disturb existing objects. -/
theorem readRef_alloc (h : Heap) (r : Nat) (d : Headers)
    (hr : r < h.objs.length) : (h.alloc d).1.readRef r = h.readRef r := by
  show (h.objs ++ [d]).getD r [] = h.objs.getD r []
  exact List.getD_append _ _ _ _ hr

/-- C7: `mask_sensitive_headers` never mutates its input object — after
the call the caller's dict reads exactly as before — and the returned
masked dict is a distinct object. -/
theorem C7_mask_pure (h : Heap) (r : Nat) (hr : r < h.objs.length) :
    (mask_sensitive_headers_heap h r).1.readRef r = h.readRef r
    ∧ (mask_sensitive_headers_heap h r).2 ≠ r := by
  unfold mask_sensitive_headers_heap
  by_cases he : (h.readRef r).isEmpty = true
  · rw [if_pos he]
    exact ⟨readRef_alloc h r [] hr, by simp [Heap.alloc]; omega⟩
  · rw [if_neg he]
    have hne : r ≠ h.objs.length := by omega
    simp only [Heap.alloc]
    refine ⟨?_, by omega⟩
    rw [foldl_mask_readRef_preserved r h.objs.length hne]
    exact readRef_alloc h r _ hr

/-- Witness for C7 on a one-object heap holding an authorization header. -/
theorem C7_mask_pure_witness :
    (mask_sensitive_headers_heap ⟨[[("authorization", "Bearer abc123456")]]⟩ 0).1.readRef 0
        = (Heap.mk [[("authorization", "Bearer abc123456")]]).readRef 0
    ∧ (mask_sensitive_headers_heap ⟨[[("authorization", "Bearer abc123456")]]⟩ 0).2 ≠ 0 :=
  C7_mask_pure ⟨[[("authorization", "Bearer abc123456")]]⟩ 0 (by decide)

/-- Length of a Python slice `s[:n]`. -/
theorem pySlice_length (s : String) (n : Nat) :
    (pySlice s n).length = min n s.length := by
  show (s.data.take n).length = min n s.length
  rw [List.length_take]
  rfl

/-- The `prefix` local of the truncation branch of `validate_tools`:
`'_'.join(parts[:3])`. -/
def namePrefix3 (name : String) : String :=
  pyJoin "_" ((pySplit name '_').take 3)

/-- The `suffix` local: `parts[-1]`. -/
def nameLastSeg (name : String) : String :=
  (pySplit name '_').getLastD ""

/-- The `remaining_chars` local:
`64 - len(prefix) - len(suffix) - 2` (Python int, may go negative). -/
def nameBudget (name : String) : Int :=
  64 - ((namePrefix3 name).length : Int) - ((nameLastSeg name).length : Int) - 2

/-- The `middle` local before truncation: `'_'.join(parts[3:-1])`. -/
def middleFull (name : String) : String :=
  pyJoin "_" (((pySplit name '_').drop 3).dropLast)

/-- The `middle` local after the budget cut (`middle[:remaining_chars]`). -/
def middleCut (name : String) : String :=
  if nameBudget name < ((middleFull name).length : Int) then
    pySlice (middleFull name) (nameBudget name).toNat
  else middleFull name

/-- The name transformation applied by `validate_tools` to each tool name
(`main.py` lines 222-246). -/
def truncate_name (name : String) : String :=
  if 64 < name.length then
    if 3 ≤ (pySplit name '_').length then
      if 0 < nameBudget name then
        namePrefix3 name ++ "_" ++ middleCut name ++ "_" ++ nameLastSeg name
      else pySlice name 60 ++ "..."
    else pySlice name 60 ++ "..."
  else name

/-- A tool as supplied to `validate_tools` (a dict whose `description` and
`input_schema` entries may be absent). -/
structure ToolIn where
  name : String
  description : Option String
  input_schema : Option Json

/-- A validated tool (`valid_tool` in the source). -/
structure Tool where
  name : String
  description : String
  input_schema : Json

/-- `validate_tools(tools)` from `main.py`: copy name, description and
input_schema (with defaults) and truncate over-long names. -/
def validate_tools (tools : List ToolIn) : List Tool :=
  tools.map (fun t =>
    { name := truncate_name t.name,
      description := t.description.getD "",
      input_schema := t.input_schema.getD (.obj []) })

/-- The middle filler never exceeds a positive budget. -/
theorem middleCut_length_le (name : String) (hb : 0 < nameBudget name) :
    ((middleCut name).length : Int) ≤ nameBudget name := by
  unfold middleCut
  by_cases hc : nameBudget name < ((middleFull name).length : Int)
  · rw [if_pos hc]
    have h1 : (pySlice (middleFull name) (nameBudget name).toNat).length
        = min (nameBudget name).toNat (middleFull name).length := pySlice_length _ _
    rw [h1]
    omega
  · rw [if_neg hc]
    omega

/-- C3 (amended): for every over-long tool name the validated name has
length at most 64; and whenever the name has at least 3 segments AND the
character budget left by the first 3 segments and the last segment is
positive, the validated name keeps those segments as prefix and suffix.
(The original claim asserted segment preservation for every name with at
least 3 segments; when the budget is not positive the code falls back to
hard truncation, which loses the segments.)  The third conjunct ties the
per-name statement to `validate_tools`. -/
theorem C3_truncation (name : String) (hlen : 64 < name.length) :
    (truncate_name name).length ≤ 64
    ∧ (3 ≤ (pySplit name '_').length → 0 < nameBudget name →
        ∃ m, truncate_name name
            = namePrefix3 name ++ "_" ++ m ++ "_" ++ nameLastSeg name
          ∧ (m.length : Int) ≤ nameBudget name)
    ∧ ∀ ts, (validate_tools ts).map Tool.name
        = ts.map (fun t => truncate_name t.name) := by
  refine ⟨?_, ?_, ?_⟩
  · unfold truncate_name
    rw [if_pos hlen]
    have hdot : ("..." : String).length = 3 := rfl
    have hu : ("_" : String).length = 1 := rfl
    by_cases h3 : 3 ≤ (pySplit name '_').length
    · rw [if_pos h3]
      by_cases hb : 0 < nameBudget name
      · rw [if_pos hb]
        have hm := middleCut_length_le name hb
        have hbdef : nameBudget name
            = 64 - ((namePrefix3 name).length : Int)
              - ((nameLastSeg name).length : Int) - 2 := rfl
        simp only [String.length_append]
        omega
      · rw [if_neg hb]
        rw [String.length_append, pySlice_length, hdot]
        omega
    · rw [if_neg h3]
      rw [String.length_append, pySlice_length, hdot]
      omega
  · intro h3 hb
    refine ⟨middleCut name, ?_, middleCut_length_le name hb⟩
    unfold truncate_name
    rw [if_pos hlen, if_pos h3, if_pos hb]
  · intro ts
    simp [validate_tools, List.map_map]

/-- C3 counterexample: a 69-character name with exactly 3 segments whose
first-3-segment prefix alone exceeds the budget; the code hard-truncates
to 63 characters, so the claimed prefix/suffix preservation fails. -/
theorem C3_counterexample :
    (64 < ("api_call_" ++ String.mk (List.replicate 60 'x')).length
      ∧ 3 ≤ (pySplit ("api_call_" ++ String.mk (List.replicate 60 'x')) '_').length)
    ∧ ∀ m, truncate_name ("api_call_" ++ String.mk (List.replicate 60 'x'))
        ≠ namePrefix3 ("api_call_" ++ String.mk (List.replicate 60 'x'))
          ++ "_" ++ m ++ "_"
          ++ nameLastSeg ("api_call_" ++ String.mk (List.replicate 60 'x')) := by
  refine ⟨by decide, ?_⟩
  intro m h
  have h1 := congrArg String.length h
  simp only [String.length_append] at h1
  have h2 : (truncate_name ("api_call_" ++ String.mk (List.replicate 60 'x'))).length
      = 63 := by decide
  have h3 : (namePrefix3 ("api_call_" ++ String.mk (List.replicate 60 'x'))).length
      = 69 := by decide
  have h4 : (nameLastSeg ("api_call_" ++ String.mk (List.replicate 60 'x'))).length
      = 60 := by decide
  have h5 : ("_" : String).length = 1 := rfl
  omega

/-- Witness for C3 on a concrete 65-character name with positive budget. -/
theorem C3_truncation_witness :
    ∃ m, truncate_name ("api_call_get_" ++ String.mk (List.replicate 50 'a') ++ "_z")
        = namePrefix3 ("api_call_get_" ++ String.mk (List.replicate 50 'a') ++ "_z")
          ++ "_" ++ m ++ "_"
          ++ nameLastSeg ("api_call_get_" ++ String.mk (List.replicate 50 'a') ++ "_z")
      ∧ (m.length : Int)
          ≤ nameBudget ("api_call_get_" ++ String.mk (List.replicate 50 'a') ++ "_z") :=
  (C3_truncation ("api_call_get_" ++ String.mk (List.replicate 50 'a') ++ "_z")
      (by decide)).2.1 (by decide) (by decide)

/-- C9: tool names of length at most 64 are left unchanged by validation;
`validate_tools` applies exactly `truncate_name` to each name. -/
theorem C9_short_name_identity (n : String) (h : n.length ≤ 64) :
    truncate_name n = n
    ∧ ∀ ts, (validate_tools ts).map Tool.name
        = ts.map (fun t => truncate_name t.name) := by
  constructor
  · unfold truncate_name
    rw [if_neg (by omega)]
  · intro ts
    simp [validate_tools, List.map_map]

/-- Witness for C9 on a short concrete name. -/
theorem C9_short_name_identity_witness :
    truncate_name "api_call_get_users" = "api_call_get_users"
    ∧ ∀ ts, (validate_tools ts).map Tool.name
        = ts.map (fun t => truncate_name t.name) :=
  C9_short_name_identity "api_call_get_users" (by decide)

/-- Python `s.startswith(pre)`. -/
def pyStartsWith (s pre : String) : Bool :=
  pre.data.isPrefixOf s.data

mutual

/-- Serializer modelling `json.dumps` (string escaping elided; no claim
inspects the serialized text). -/
def dumps : Json → String
  | .null => "null"
  | .bool true => "true"
  | .bool false => "false"
  | .num n => toString n
  | .str s => "\"" ++ s ++ "\""
  | .arr xs => "[" ++ dumpsList xs ++ "]"
  | .obj kvs => "\x7b" ++ dumpsObj kvs ++ "\x7d"

def dumpsList : List Json → String
  | [] => ""
  | [x] => dumps x
  | x :: y :: rest => dumps x ++ ", " ++ dumpsList (y :: rest)

def dumpsObj : List (String × Json) → String
  | [] => ""
  | [p] => "\"" ++ p.1 ++ "\": " ++ dumps p.2
  | p :: q :: rest => "\"" ++ p.1 ++ "\": " ++ dumps p.2 ++ ", " ++ dumpsObj (q :: rest)

end

/-- A `tool_use` content block emitted by the model. -/
structure ToolUse where
  id : String
  name : String
  input : JObj

/-- One content block of a model response (`content_block.type` probing). -/
inductive ContentBlock where
  | text (t : String)
  | toolUse (tu : ToolUse)

/-- A model response: its ordered content blocks. -/
structure ModelResponse where
  content : List ContentBlock

/-- Message content: a plain user string, verbatim model content, or the
synthetic single-element `tool_result` content list. -/
inductive MsgContent where
  | str (s : String)
  | blocks (bs : List ContentBlock)
  | toolResult (tool_use_id : String) (content : String)

/-- One conversation message. -/
structure Message where
  role : String
  content : MsgContent

/-- The `tool_execution` record of `process_tool_use` (timestamp and
duration, which are wall-clock readings, are not modelled). -/
structure ToolExecutionRecord where
  tool_name : String
  input : JObj
  result : Option JObj
  success : Bool
  error_details : Option JObj

/-- The value returned by `process_tool_use` on dispatch:
`{tool_use_id, content}`. -/
structure ToolRet where
  tool_use_id : String
  content : String

/-- Result of one `process_tool_use` call: the returned value (`none`
models Python `None`), the tool-execution history after the call, and
whether an HTTP request was issued. -/
structure ProcResult where
  ret : Option ToolRet
  history : List ToolExecutionRecord
  requested : Bool

/-- Extract the string-valued `headers` entry of a tool input. -/
def jsonHeaders? : Option Json → Option Headers
  | some (.obj kvs) => some (kvs.filterMap (fun p =>
      match p.2 with
      | .str s => some (p.1, s)
      | _ => none))
  | _ => none

/-- The `api_call_service` invocation made by `process_tool_use`, with the
arguments drawn from the tool input. -/
def apiCallOf (tu : ToolUse) (defaults : Headers) (t : Transport) : CallOutcome :=
  api_call_service (getKey? tu.input "url") (getKey? tu.input "method")
    (getKey? tu.input "requestBody") (getKey? tu.input "params")
    (jsonHeaders? (getKey? tu.input "headers")) defaults t

/-- The result of that invocation (dict, or escaping exception name). -/
def apiResultOf (tu : ToolUse) (defaults : Headers) (t : Transport) : Except String JObj :=
  (apiCallOf tu defaults t).result

/-- The finalized `tool_execution` record for a normally returned tool
result: `success` is false and `error_details` is filled exactly when the
result carries an `error` key. -/
def finalRecord (tu : ToolUse) (tool_result : JObj) : ToolExecutionRecord :=
  if hasKey tool_result "error" then
    { tool_name := tu.name, input := tu.input, result := some tool_result,
      success := false,
      error_details := some
        [("message", (getKey? tool_result "error").getD .null),
         ("status_code", (getKey? tool_result "status_code").getD (.str "unknown")),
         ("response", .obj tool_result)] }
  else
    { tool_name := tu.name, input := tu.input, result := some tool_result,
      success := true, error_details := none }

/-- `process_tool_use(tool_use, ...)` from `main.py`.  Only names starting
with `api_call` are dispatched; an exception raised by the underlying
call is caught (`except Exception`) and answered with an error payload,
returning early — before the `tool_execution_history.append` line. -/
def process_tool_use (tu : ToolUse) (hist : List ToolExecutionRecord)
    (defaults : Headers) (t : Transport) : ProcResult :=
  if pyStartsWith tu.name "api_call" then
    let co := apiCallOf tu defaults t
    match co.result with
    | .error e =>
        { ret := some ⟨tu.id, dumps (.obj [("error", .str e), ("details", .str e)])⟩,
          history := hist, requested := co.requested }
    | .ok tool_result =>
        { ret := some ⟨tu.id, dumps (.obj tool_result)⟩,
          history := hist ++ [finalRecord tu tool_result],
          requested := co.requested }
  else
    { ret := none, history := hist, requested := false }

/-- The scan for the first `tool_use` content block of a response. -/
def firstToolUse (r : ModelResponse) : Option ToolUse :=
  r.content.findSome? (fun b =>
    match b with
    | .toolUse tu => some tu
    | .text _ => none)

/-- Outcome of `chat_with_claude`: the returned response or the
re-raised model-API exception, the final conversation, the final tool
history, and the number of model round-trips performed. -/
structure ChatOutcome where
  result : Except String ModelResponse
  messages : List Message
  history : List ToolExecutionRecord
  modelCalls : Nat

/-- The `while iteration < max_iterations` loop of `chat_with_claude`.
`mdl` is the model (a function of the conversation so far, which may
raise), `trs` gives the transport outcome of the tool call of each
iteration, `fuel` is `max_iterations - iteration`, `calls` the model
round-trips made so far, and `last` the last obtained response. -/
def chatLoop (mdl : List Message → Except String ModelResponse)
    (trs : Nat → Transport) (defaults : Headers) :
    Nat → List Message → List ToolExecutionRecord → Nat → Option ModelResponse → ChatOutcome
  | 0, msgs, hist, calls, last =>
      { result := match last with
          | some r => .ok r
          | none => .error "NameError",
        messages := msgs, history := hist, modelCalls := calls }
  | fuel + 1, msgs, hist, calls, _last =>
      match mdl msgs with
      | .error e => { result := .error e, messages := msgs, history := hist,
                      modelCalls := calls + 1 }
      | .ok response =>
          match firstToolUse response with
          | none => { result := .ok response, messages := msgs, history := hist,
                      modelCalls := calls + 1 }
          | some tu =>
              let pr := process_tool_use tu hist defaults (trs (calls + 1))
              match pr.ret with
              | none =>
                  chatLoop mdl trs defaults fuel msgs pr.history (calls + 1) (some response)
              | some tr =>
                  chatLoop mdl trs defaults fuel
                    (msgs ++ [⟨"assistant", .blocks response.content⟩,
                              ⟨"user", .toolResult tr.tool_use_id tr.content⟩])
                    pr.history (calls + 1) (some response)

/-- `chat_with_claude(user_query, tools, ..., messages)` with a
caller-supplied conversation: the query is appended to the caller's list,
then the loop runs with `max_iterations = 10`.  `hist0` is the
process-wide `tool_execution_history` at entry. -/
def chat_with_claude (mdl : List Message → Except String ModelResponse)
    (trs : Nat → Transport) (defaults : Headers) (user_query : String)
    (messages : List Message) (hist0 : List ToolExecutionRecord) : ChatOutcome :=
  chatLoop mdl trs defaults 10 (messages ++ [⟨"user", .str user_query⟩]) hist0 0 none

/-- The loop makes at most `fuel` further model calls. -/
theorem chatLoop_modelCalls_le (mdl : List Message → Except String ModelResponse)
    (trs : Nat → Transport) (defaults : Headers) :
    ∀ (fuel : Nat) (msgs : List Message) (hist : List ToolExecutionRecord)
      (calls : Nat) (last : Option ModelResponse),
      (chatLoop mdl trs defaults fuel msgs hist calls last).modelCalls ≤ calls + fuel := by
  intro fuel
  induction fuel with
  | zero =>
    intro msgs hist calls last
    simp [chatLoop]
  | succ n ih =>
    intro msgs hist calls last
    simp only [chatLoop]
    cases hm : mdl msgs with
    | error e =>
      show calls + 1 ≤ calls + (n + 1)
      omega
    | ok response =>
      cases hf : firstToolUse response with
      | none =>
        simp only [hf]
        show calls + 1 ≤ calls + (n + 1)
        omega
      | some tu =>
        simp only [hf]
        cases hr : (process_tool_use tu hist defaults (trs (calls + 1))).ret with
        | none =>
          simp only [hr]
          exact (ih _ _ _ _).trans (by omega)
        | some tr =>
          simp only [hr]
          exact (ih _ _ _ _).trans (by omega)

/-- The loop only appends to the conversation. -/
theorem chatLoop_messages_monotone (mdl : List Message → Except String ModelResponse)
    (trs : Nat → Transport) (defaults : Headers) :
    ∀ (fuel : Nat) (msgs : List Message) (hist : List ToolExecutionRecord)
      (calls : Nat) (last : Option ModelResponse),
      List.IsPrefix msgs (chatLoop mdl trs defaults fuel msgs hist calls last).messages := by
  intro fuel
  induction fuel with
  | zero =>
    intro msgs hist calls last
    simp [chatLoop]
  | succ n ih =>
    intro msgs hist calls last
    simp only [chatLoop]
    cases hm : mdl msgs with
    | error e =>
      show List.IsPrefix msgs msgs
      exact ⟨[], List.append_nil msgs⟩
    | ok response =>
      cases hf : firstToolUse response with
      | none =>
        simp only [hf]
        show List.IsPrefix msgs msgs
        exact ⟨[], List.append_nil msgs⟩
      | some tu =>
        simp only [hf]
        cases hr : (process_tool_use tu hist defaults (trs (calls + 1))).ret with
        | none =>
          simp only [hr]
          exact ih _ _ _ _
        | some tr =>
          simp only [hr]
          exact List.IsPrefix.trans ⟨_, rfl⟩ (ih _ _ _ _)

/-- When the model always answers with a tool-bearing response, the loop
consumes all its fuel and exits with the response of its final model
call: the returned response `r` was obtained at a conversation `ms2`
that equals the final conversation, or equals it up to the two messages
appended by the last iteration — so `r` is the last obtained response,
not an earlier one. -/
theorem chatLoop_nonterminal (mdl : List Message → Except String ModelResponse)
    (trs : Nat → Transport) (defaults : Headers)
    (hNT : ∀ ms, ∃ r, mdl ms = .ok r ∧ (firstToolUse r).isSome = true) :
    ∀ (n : Nat) (msgs : List Message) (hist : List ToolExecutionRecord)
      (calls : Nat) (last : Option ModelResponse),
      ∃ r ms2, (chatLoop mdl trs defaults (n + 1) msgs hist calls last).result = .ok r
        ∧ mdl ms2 = .ok r
        ∧ (firstToolUse r).isSome = true
        ∧ ((chatLoop mdl trs defaults (n + 1) msgs hist calls last).messages = ms2
           ∨ ∃ tr : ToolRet, (chatLoop mdl trs defaults (n + 1) msgs hist calls last).messages
               = ms2 ++ [⟨"assistant", .blocks r.content⟩,
                         ⟨"user", .toolResult tr.tool_use_id tr.content⟩])
        ∧ (chatLoop mdl trs defaults (n + 1) msgs hist calls last).modelCalls
            = calls + (n + 1) := by
  intro n
  induction n with
  | zero =>
    intro msgs hist calls last
    obtain ⟨r, hm, hts⟩ := hNT msgs
    obtain ⟨tu, htu⟩ := Option.isSome_iff_exists.mp hts
    cases hr : (process_tool_use tu hist defaults (trs (calls + 1))).ret with
    | none =>
      have e : chatLoop mdl trs defaults (0 + 1) msgs hist calls last
          = chatLoop mdl trs defaults 0 msgs
              (process_tool_use tu hist defaults (trs (calls + 1))).history
              (calls + 1) (some r) := by
        simp only [chatLoop, hm, htu, hr]
      rw [e]
      exact ⟨r, msgs, rfl, hm, hts, Or.inl rfl, rfl⟩
    | some tr =>
      have e : chatLoop mdl trs defaults (0 + 1) msgs hist calls last
          = chatLoop mdl trs defaults 0
              (msgs ++ [⟨"assistant", .blocks r.content⟩,
                        ⟨"user", .toolResult tr.tool_use_id tr.content⟩])
              (process_tool_use tu hist defaults (trs (calls + 1))).history
              (calls + 1) (some r) := by
        simp only [chatLoop, hm, htu, hr]
      rw [e]
      exact ⟨r, msgs, rfl, hm, hts, Or.inr ⟨tr, rfl⟩, rfl⟩
  | succ k ih =>
    intro msgs hist calls last
    obtain ⟨r, hm, hts⟩ := hNT msgs
    obtain ⟨tu, htu⟩ := Option.isSome_iff_exists.mp hts
    cases hr : (process_tool_use tu hist defaults (trs (calls + 1))).ret with
    | none =>
      have e : chatLoop mdl trs defaults (k + 1 + 1) msgs hist calls last
          = chatLoop mdl trs defaults (k + 1) msgs
              (process_tool_use tu hist defaults (trs (calls + 1))).history
              (calls + 1) (some r) := by
        simp only [chatLoop, hm, htu, hr]
      rw [e]
      obtain ⟨r2, ms2, h1, h2, h3, h4, h5⟩ := ih msgs
        (process_tool_use tu hist defaults (trs (calls + 1))).history (calls + 1) (some r)
      exact ⟨r2, ms2, h1, h2, h3, h4, by omega⟩
    | some tr =>
      have e : chatLoop mdl trs defaults (k + 1 + 1) msgs hist calls last
          = chatLoop mdl trs defaults (k + 1)
              (msgs ++ [⟨"assistant", .blocks r.content⟩,
                        ⟨"user", .toolResult tr.tool_use_id tr.content⟩])
              (process_tool_use tu hist defaults (trs (calls + 1))).history
              (calls + 1) (some r) := by
        simp only [chatLoop, hm, htu, hr]
      rw [e]
      obtain ⟨r2, ms2, h1, h2, h3, h4, h5⟩ := ih
        (msgs ++ [⟨"assistant", .blocks r.content⟩,
                  ⟨"user", .toolResult tr.tool_use_id tr.content⟩])
        (process_tool_use tu hist defaults (trs (calls + 1))).history (calls + 1) (some r)
      exact ⟨r2, ms2, h1, h2, h3, h4, by omega⟩

/-- C4: the orchestrator performs at most 10 model round-trips for every
model behaviour; and under a model that always returns a tool invocation
it performs exactly 10 and returns (rather than raising or looping) the
last obtained model response: the returned `r` is still tool-bearing
(so it was not returned through the completed path) and was obtained at
a conversation `ms2` that is the final conversation, or the final
conversation minus exactly the two messages the last iteration appended
— since the conversation only grows, the call at `ms2` is the final
round-trip. -/
theorem C4_iteration_bound (mdl : List Message → Except String ModelResponse)
    (trs : Nat → Transport) (defaults : Headers) (q : String)
    (msgs : List Message) (hist0 : List ToolExecutionRecord)
    (hNT : ∀ ms, ∃ r, mdl ms = .ok r ∧ (firstToolUse r).isSome = true) :
    (∀ (mdl2 : List Message → Except String ModelResponse) (trs2 : Nat → Transport)
        (d2 : Headers) (q2 : String) (m2 : List Message)
        (hh2 : List ToolExecutionRecord),
        (chat_with_claude mdl2 trs2 d2 q2 m2 hh2).modelCalls ≤ 10)
    ∧ (chat_with_claude mdl trs defaults q msgs hist0).modelCalls = 10
    ∧ ∃ r ms2, (chat_with_claude mdl trs defaults q msgs hist0).result = .ok r
        ∧ mdl ms2 = .ok r
        ∧ (firstToolUse r).isSome = true
        ∧ ((chat_with_claude mdl trs defaults q msgs hist0).messages = ms2
           ∨ ∃ tr : ToolRet, (chat_with_claude mdl trs defaults q msgs hist0).messages
               = ms2 ++ [⟨"assistant", .blocks r.content⟩,
                         ⟨"user", .toolResult tr.tool_use_id tr.content⟩]) := by
  refine ⟨?_, ?_⟩
  · intro mdl2 trs2 d2 q2 m2 hh2
    have h := chatLoop_modelCalls_le mdl2 trs2 d2 10
      (m2 ++ [⟨"user", .str q2⟩]) hh2 0 none
    simpa [chat_with_claude] using h
  · obtain ⟨r, ms2, h1, h2, h3, h4, h5⟩ := chatLoop_nonterminal mdl trs defaults hNT 9
      (msgs ++ [⟨"user", .str q⟩]) hist0 0 none
    exact ⟨h5, r, ms2, h1, h2, h3, h4⟩

/-- Witness for C4: a model that always asks for the same tool. -/
theorem C4_iteration_bound_witness :
    (chat_with_claude (fun _ => .ok ⟨[.toolUse ⟨"i", "t", []⟩]⟩)
        (fun _ => .exn "refused" "ConnectionError") initial_default_headers
        "hello" [] []).modelCalls = 10
    ∧ ∃ r ms2,
        (chat_with_claude (fun _ => .ok ⟨[.toolUse ⟨"i", "t", []⟩]⟩)
          (fun _ => .exn "refused" "ConnectionError") initial_default_headers
          "hello" [] []).result = .ok r
        ∧ (fun (_ : List Message) =>
            (Except.ok ⟨[.toolUse ⟨"i", "t", []⟩]⟩ :
              Except String ModelResponse)) ms2 = .ok r
        ∧ (firstToolUse r).isSome = true
        ∧ ((chat_with_claude (fun _ => .ok ⟨[.toolUse ⟨"i", "t", []⟩]⟩)
              (fun _ => .exn "refused" "ConnectionError") initial_default_headers
              "hello" [] []).messages = ms2
           ∨ ∃ tr : ToolRet, (chat_with_claude (fun _ => .ok ⟨[.toolUse ⟨"i", "t", []⟩]⟩)
              (fun _ => .exn "refused" "ConnectionError") initial_default_headers
              "hello" [] []).messages
               = ms2 ++ [⟨"assistant", .blocks r.content⟩,
                         ⟨"user", .toolResult tr.tool_use_id tr.content⟩]) :=
  (C4_iteration_bound (fun _ => .ok ⟨[.toolUse ⟨"i", "t", []⟩]⟩)
    (fun _ => .exn "refused" "ConnectionError") initial_default_headers
    "hello" [] []
    (fun _ => ⟨⟨[.toolUse ⟨"i", "t", []⟩]⟩, rfl, rfl⟩)).2

/-- C5: a tool invocation whose name does not start with `api_call` makes
`process_tool_use` return `None` with no HTTP request and no history
append, and the corresponding loop iteration appends no message while
still consuming one iteration. -/
theorem C5_unreserved_name_ignored (tu : ToolUse) (hist : List ToolExecutionRecord)
    (defaults : Headers) (t : Transport)
    (mdl : List Message → Except String ModelResponse) (trs : Nat → Transport)
    (fuel : Nat) (msgs : List Message) (calls : Nat) (last : Option ModelResponse)
    (r : ModelResponse)
    (h : pyStartsWith tu.name "api_call" = false)
    (hm : mdl msgs = .ok r) (hf : firstToolUse r = some tu) :
    process_tool_use tu hist defaults t = ⟨none, hist, false⟩
    ∧ chatLoop mdl trs defaults (fuel + 1) msgs hist calls last
        = chatLoop mdl trs defaults fuel msgs hist (calls + 1) (some r) := by
  have hp : ∀ t', process_tool_use tu hist defaults t' = ⟨none, hist, false⟩ := by
    intro t'
    simp [process_tool_use, h]
  refine ⟨hp t, ?_⟩
  simp only [chatLoop, hm, hf, hp]

/-- Witness for C5 with the unknown tool name `web_search`. -/
theorem C5_unreserved_name_ignored_witness :
    process_tool_use ⟨"i", "web_search", []⟩ [] initial_default_headers
        (.exn "x" "E") = ⟨none, [], false⟩
    ∧ chatLoop (fun _ => .ok ⟨[.toolUse ⟨"i", "web_search", []⟩]⟩)
        (fun _ => .exn "x" "E") initial_default_headers (0 + 1) [] [] 0 none
      = chatLoop (fun _ => .ok ⟨[.toolUse ⟨"i", "web_search", []⟩]⟩)
        (fun _ => .exn "x" "E") initial_default_headers 0 [] [] (0 + 1)
        (some ⟨[.toolUse ⟨"i", "web_search", []⟩]⟩) :=
  C5_unreserved_name_ignored ⟨"i", "web_search", []⟩ [] initial_default_headers
    (.exn "x" "E") (fun _ => .ok ⟨[.toolUse ⟨"i", "web_search", []⟩]⟩)
    (fun _ => .exn "x" "E") 0 [] 0 none ⟨[.toolUse ⟨"i", "web_search", []⟩]⟩
    rfl rfl rfl

/-- C2 (amended): for a dispatched (reserved-prefix) invocation, exactly
one finalized record is appended to the history when the underlying call
returns a result — including results that carry an error payload — and
nothing is appended when the underlying call raises, because the
exception handler returns before the append. -/
theorem C2_history_append (tu : ToolUse) (hist : List ToolExecutionRecord)
    (defaults : Headers) (t : Transport)
    (h : pyStartsWith tu.name "api_call" = true) :
    (process_tool_use tu hist defaults t).history
      = match apiResultOf tu defaults t with
        | .ok r => hist ++ [finalRecord tu r]
        | .error _ => hist := by
  cases hc : (apiCallOf tu defaults t).result with
  | error e =>
    have hc' : apiResultOf tu defaults t = .error e := hc
    simp [process_tool_use, h, hc, hc']
  | ok r =>
    have hc' : apiResultOf tu defaults t = .ok r := hc
    simp [process_tool_use, h, hc, hc']

/-- C2 counterexample: a dispatched call whose underlying service raises
(the `NameError` of C1) finalizes the record with error details but does
not append it to the execution history — the claim's "appended … when it
raises" fails. -/
theorem C2_lost_record_on_exception :
    apiResultOf ⟨"id1", "api_call_get", [("url", .str "http://h"), ("method", .str "GET")]⟩
        initial_default_headers (.response 404 none (.inr "oops")) = .error "NameError"
    ∧ (process_tool_use
        ⟨"id1", "api_call_get", [("url", .str "http://h"), ("method", .str "GET")]⟩
        [] initial_default_headers (.response 404 none (.inr "oops"))).history = []
    ∧ (process_tool_use
        ⟨"id1", "api_call_get", [("url", .str "http://h"), ("method", .str "GET")]⟩
        [] initial_default_headers (.response 404 none (.inr "oops"))).ret.isSome
        = true :=
  ⟨rfl, rfl, rfl⟩

/-- Witness for C2 on a dispatched call that completes normally. -/
theorem C2_history_append_witness :
    (process_tool_use
        ⟨"id2", "api_call_get", [("url", .str "http://h"), ("method", .str "GET")]⟩
        [] initial_default_headers (.response 200 none (.inl (.obj [])))).history
      = match apiResultOf
            ⟨"id2", "api_call_get", [("url", .str "http://h"), ("method", .str "GET")]⟩
            initial_default_headers (.response 200 none (.inl (.obj []))) with
        | .ok r => [] ++ [finalRecord
            ⟨"id2", "api_call_get", [("url", .str "http://h"), ("method", .str "GET")]⟩ r]
        | .error _ => [] :=
  C2_history_append
    ⟨"id2", "api_call_get", [("url", .str "http://h"), ("method", .str "GET")]⟩
    [] initial_default_headers (.response 200 none (.inl (.obj []))) rfl

/-- C10: `chat_with_claude` works on the caller-supplied conversation: the
user query is appended before the first model call and stays there even
when the model call raises (second conjunct: the outcome carries the
extended list and no rollback happens), the list only ever grows (first
conjunct), and each dispatched tool call appends exactly the assistant
message and the synthetic tool-result message (third conjunct). -/
theorem C10_messages_mutation (mdl : List Message → Except String ModelResponse)
    (trs : Nat → Transport) (defaults : Headers) (q : String)
    (msgs : List Message) (hist0 : List ToolExecutionRecord) (e : String)
    (fuel : Nat) (ms : List Message) (hist : List ToolExecutionRecord)
    (calls : Nat) (last : Option ModelResponse) (r : ModelResponse)
    (tu : ToolUse) (tr : ToolRet)
    (he : mdl (msgs ++ [⟨"user", .str q⟩]) = .error e)
    (hm : mdl ms = .ok r)
    (hf : firstToolUse r = some tu)
    (hr : (process_tool_use tu hist defaults (trs (calls + 1))).ret = some tr) :
    List.IsPrefix (msgs ++ [⟨"user", .str q⟩])
        (chat_with_claude mdl trs defaults q msgs hist0).messages
    ∧ chat_with_claude mdl trs defaults q msgs hist0
        = ⟨.error e, msgs ++ [⟨"user", .str q⟩], hist0, 1⟩
    ∧ chatLoop mdl trs defaults (fuel + 1) ms hist calls last
        = chatLoop mdl trs defaults fuel
            (ms ++ [⟨"assistant", .blocks r.content⟩,
                    ⟨"user", .toolResult tr.tool_use_id tr.content⟩])
            (process_tool_use tu hist defaults (trs (calls + 1))).history
            (calls + 1) (some r) := by
  refine ⟨?_, ?_, ?_⟩
  · show List.IsPrefix (msgs ++ [⟨"user", .str q⟩])
      (chatLoop mdl trs defaults 10 (msgs ++ [⟨"user", .str q⟩]) hist0 0 none).messages
    exact chatLoop_messages_monotone mdl trs defaults 10 _ hist0 0 none
  · show chatLoop mdl trs defaults (9 + 1) (msgs ++ [⟨"user", .str q⟩]) hist0 0 none
      = ⟨.error e, msgs ++ [⟨"user", .str q⟩], hist0, 1⟩
    simp only [chatLoop, he]
  · simp only [chatLoop, hm, hf, hr]

/-- Witness for C10: a model that raises on the first call of the run,
answers with a dispatched tool call on a longer conversation. -/
theorem C10_messages_mutation_witness :
    List.IsPrefix (([] : List Message) ++ [⟨"user", .str "q"⟩])
        (chat_with_claude
          (fun ms => if ms.length == 1 then .error "boom"
            else .ok ⟨[.toolUse ⟨"i", "api_call_get",
              [("url", .str "http://h"), ("method", .str "GET")]⟩]⟩)
          (fun _ => .response 200 none (.inl (.obj []))) initial_default_headers
          "q" [] []).messages
    ∧ chat_with_claude
          (fun ms => if ms.length == 1 then .error "boom"
            else .ok ⟨[.toolUse ⟨"i", "api_call_get",
              [("url", .str "http://h"), ("method", .str "GET")]⟩]⟩)
          (fun _ => .response 200 none (.inl (.obj []))) initial_default_headers
          "q" [] []
        = ⟨.error "boom", ([] : List Message) ++ [⟨"user", .str "q"⟩], [], 1⟩
    ∧ chatLoop
          (fun ms => if ms.length == 1 then .error "boom"
            else .ok ⟨[.toolUse ⟨"i", "api_call_get",
              [("url", .str "http://h"), ("method", .str "GET")]⟩]⟩)
          (fun _ => .response 200 none (.inl (.obj []))) initial_default_headers
          (0 + 1) [⟨"user", .str "q"⟩, ⟨"user", .str "q"⟩] [] 0 none
        = chatLoop
          (fun ms => if ms.length == 1 then .error "boom"
            else .ok ⟨[.toolUse ⟨"i", "api_call_get",
              [("url", .str "http://h"), ("method", .str "GET")]⟩]⟩)
          (fun _ => .response 200 none (.inl (.obj []))) initial_default_headers
          0
          ([⟨"user", .str "q"⟩, ⟨"user", .str "q"⟩]
            ++ [⟨"assistant", .blocks [.toolUse ⟨"i", "api_call_get",
                  [("url", .str "http://h"), ("method", .str "GET")]⟩]⟩,
                ⟨"user", .toolResult "i" (dumps (.obj [("status_code", .num 200)]))⟩])
          (ProcResult.history (process_tool_use
            ⟨"i", "api_call_get", [("url", .str "http://h"), ("method", .str "GET")]⟩
            [] initial_default_headers (.response 200 none (.inl (.obj [])))))
          (0 + 1)
          (some ⟨[.toolUse ⟨"i", "api_call_get",
            [("url", .str "http://h"), ("method", .str "GET")]⟩]⟩) :=
  C10_messages_mutation
    (fun ms => if ms.length == 1 then .error "boom"
      else .ok ⟨[.toolUse ⟨"i", "api_call_get",
        [("url", .str "http://h"), ("method", .str "GET")]⟩]⟩)
    (fun _ => .response 200 none (.inl (.obj []))) initial_default_headers
    "q" [] [] "boom" 0 [⟨"user", .str "q"⟩, ⟨"user", .str "q"⟩] [] 0 none
    ⟨[.toolUse ⟨"i", "api_call_get",
      [("url", .str "http://h"), ("method", .str "GET")]⟩]⟩
    ⟨"i", "api_call_get", [("url", .str "http://h"), ("method", .str "GET")]⟩
    ⟨"i", dumps (.obj [("status_code", .num 200)])⟩
    rfl rfl rfl rfl
